import Mathlib

/-!
Verification of the Nazara Engine rendering-resource abstraction layer.

Shallow embedding of the excerpted sources:
* `Unicode.*` — the ASCII fallback implementation of the Unicode helpers
  (`src/unnamed/part_000`).
* `VertexDeclaration.*` — `VertexDeclaration.inl`.
* `Buffer.*` — the accessors of `Buffer.inl`.
* `Vk.Image.*` — `Image::BindImageMemory` (`RenderBuffer.inl`, embedded Vulkan part).
* `GL.Shader.*` — the OpenGL shader wrapper (`Shader.inl`).
* `Vk.DeviceMemory.*`, `SoftwareBuffer.*`, `NzVertexBuffer.*` — the bodies of these
  operations are not among the excerpted sources (only their class declarations are),
  so they are modelled from the specification; each such definition says so in its
  doc comment.

Characters (`char32_t`) are modelled as `Nat`; the arithmetic of the ASCII case
conversions never wraps a 32-bit unsigned value on the guarded ranges, so plain
`Nat` addition and truncated subtraction coincide with the C semantics there.
-/

/-- The subset of the `nzUnicodeCategory` enumeration reached by the ASCII
fallback implementation, together with the letter categories (used to state
that the code does not return them for letters). -/
inductive Unicode.Category where
  | Letter_Lowercase
  | Letter_Titlecase
  | Letter_Uppercase
  | Number_DecimalDigit
  | Other_Control
  | Punctuation_Close
  | Punctuation_Connector
  | Punctuation_Dash
  | Punctuation_Open
  | Punctuation_Other
  | Separator_Space
  | Symbol_Math
  | Symbol_Modifier
  | NoCategory
  deriving DecidableEq

/-- `Unicode::GetCategory` (ASCII fallback path): the big `switch` over the
character code, transcribed case by case from `src/unnamed/part_000`. Note the
source returns `Category_Number_DecimalDigit` for the cases `'A'`..`'Z'` and
`'a'`..`'z'`, exactly as for `'0'`..`'9'`. -/
def Unicode.GetCategory (character : Nat) : Unicode.Category :=
  match character with
  | 0x00 | 0x01 | 0x02 | 0x03 | 0x04 | 0x05 | 0x06 | 0x07
  | 0x08 | 0x09 | 0x0A | 0x0B | 0x0C | 0x0D | 0x0E | 0x0F
  | 0x10 | 0x11 | 0x12 | 0x13 | 0x14 | 0x15 | 0x16 | 0x17
  | 0x18 | 0x19 | 0x1A | 0x1B | 0x1C | 0x1D | 0x1E | 0x1F
  | 0x7F => Unicode.Category.Other_Control
  | 32 => Unicode.Category.Separator_Space
  | 33 | 34 | 35 | 36 | 37 | 38 | 39 | 42 | 44 | 46 | 47
  | 58 | 59 | 63 | 64 | 92 => Unicode.Category.Punctuation_Other
  | 40 | 91 | 123 => Unicode.Category.Punctuation_Open
  | 41 | 125 | 93 => Unicode.Category.Punctuation_Close
  | 43 | 60 | 61 | 62 | 124 | 126 => Unicode.Category.Symbol_Math
  | 45 => Unicode.Category.Punctuation_Dash
  | 48 | 49 | 50 | 51 | 52 | 53 | 54 | 55 | 56 | 57 =>
      Unicode.Category.Number_DecimalDigit
  | 65 | 66 | 67 | 68 | 69 | 70 | 71 | 72 | 73 | 74 | 75 | 76 | 77
  | 78 | 79 | 80 | 81 | 82 | 83 | 84 | 85 | 86 | 87 | 88 | 89 | 90 =>
      Unicode.Category.Number_DecimalDigit
  | 95 => Unicode.Category.Punctuation_Connector
  | 94 | 96 => Unicode.Category.Symbol_Modifier
  | 97 | 98 | 99 | 100 | 101 | 102 | 103 | 104 | 105 | 106 | 107 | 108 | 109
  | 110 | 111 | 112 | 113 | 114 | 115 | 116 | 117 | 118 | 119 | 120 | 121 | 122 =>
      Unicode.Category.Number_DecimalDigit
  | _ => Unicode.Category.NoCategory

/-- `Unicode::GetLowercase` (ASCII fallback path): adds `'a' - 'A'` (= 32)
to characters in `'A'`..`'Z'`. -/
def Unicode.GetLowercase (character : Nat) : Nat :=
  if 65 ≤ character ∧ character ≤ 90 then character + 32 else character

/-- `Unicode::GetUppercase` (ASCII fallback path): adds `'A' - 'a'` (= -32, i.e.
subtracts 32; never borrows below zero since the guarded range starts at 97)
to characters in `'a'`..`'z'`. -/
def Unicode.GetUppercase (character : Nat) : Nat :=
  if 97 ≤ character ∧ character ≤ 122 then character - 32 else character

/-- `Unicode::GetTitlecase` (ASCII fallback path): delegates to `GetUppercase`. -/
def Unicode.GetTitlecase (character : Nat) : Nat :=
  Unicode.GetUppercase character

/-- The `nzVertexComponent` enumeration: the semantic meaning of a vertex
component. Only `Userdata` slots may carry a non-zero component index. -/
inductive VertexComponent where
  | Color
  | Normal
  | Position
  | Tangent
  | TexCoord
  | Userdata
  deriving DecidableEq

/-- The scalar/vector type of a vertex component (`nzComponentType`). -/
inductive ComponentType where
  | Color
  | Float1
  | Float2
  | Float3
  | Float4
  | Int1
  deriving DecidableEq

/-- Per-vertex/per-instance input rate of a declaration. -/
inductive VertexInputRate where
  | Instance
  | Vertex
  deriving DecidableEq

/-- One `VertexDeclaration::Component` record: semantic component id, component
index (for user-data slots), type, and byte offset. -/
structure VertexDeclaration.Component where
  component : VertexComponent
  componentIndex : Nat
  type : ComponentType
  offset : Nat
  deriving DecidableEq

/-- A `VertexDeclaration`: an ordered sequence of components plus a total
stride and an input rate. -/
structure VertexDeclaration where
  components : List VertexDeclaration.Component
  stride : Nat
  inputRate : VertexInputRate

/-- `VertexDeclaration::FindComponent` (`VertexDeclaration.inl`): a linear scan
over `m_components` returning a pointer to the first component whose
`(component, componentIndex)` pair matches, or `nullptr` (here `none`). The
`assert(componentIndex == 0 || vertexComponent == VertexComponent_Userdata)`
precondition appears as a hypothesis of the corresponding theorem. -/
def VertexDeclaration.FindComponent (d : VertexDeclaration)
    (vertexComponent : VertexComponent) (componentIndex : Nat) :
    Option VertexDeclaration.Component :=
  d.components.find? fun c =>
    c.component == vertexComponent && c.componentIndex == componentIndex

/-- `VertexDeclaration::GetComponentCount`. -/
def VertexDeclaration.GetComponentCount (d : VertexDeclaration) : Nat :=
  d.components.length

/-- `VertexDeclaration::GetStride`. -/
def VertexDeclaration.GetStride (d : VertexDeclaration) : Nat :=
  d.stride

/-- `VertexDeclaration::HasComponent`: `FindComponent(...) != nullptr`. -/
def VertexDeclaration.HasComponent (d : VertexDeclaration)
    (component : VertexComponent) (componentIndex : Nat) : Bool :=
  (d.FindComponent component componentIndex).isSome

/-- Software or hardware storage of a buffer (`DataStorage`). -/
inductive DataStorage where
  | Hardware
  | Software
  deriving DecidableEq

/-- Type of a buffer (`BufferType`). -/
inductive BufferType where
  | Index
  | Vertex
  deriving DecidableEq

/-- The backend implementation object of a `Buffer` (`AbstractBuffer`),
reduced to what the excerpted accessors reach: its storage kind. -/
structure AbstractBuffer where
  storage : DataStorage
  deriving DecidableEq

/-- `AbstractBuffer::GetStorage`. -/
def AbstractBuffer.GetStorage (impl : AbstractBuffer) : DataStorage :=
  impl.storage

/-- A `Buffer` (`Buffer.inl` accessors): `m_impl` is a possibly-null owning
pointer to the backend implementation; `none` models the null pointer. -/
structure Buffer where
  impl : Option AbstractBuffer
  size : Nat
  type : BufferType

/-- `Buffer::GetSize`. -/
def Buffer.GetSize (b : Buffer) : Nat := b.size

/-- `Buffer::GetStorage` (`Buffer.inl`): `return m_impl->GetStorage();` — the
implementation pointer is dereferenced with no null check. The embedding makes
the dereference explicit: `none` is the outcome of dereferencing a null
`m_impl` (undefined behaviour in the C++ source), `some` the defined result. -/
def Buffer.GetStorage (b : Buffer) : Option DataStorage :=
  b.impl.map AbstractBuffer.GetStorage

/-- `Buffer::HasStorage` (`Buffer.inl`): `return GetStorage() == storage;` —
inherits the unconditional dereference performed by `GetStorage`. -/
def Buffer.HasStorage (b : Buffer) (storage : DataStorage) : Option Bool :=
  (b.GetStorage).map fun s => s == storage

/-- `Buffer::IsValid` (`Buffer.inl`): `return m_impl != nullptr;` — total. -/
def Buffer.IsValid (b : Buffer) : Bool :=
  b.impl.isSome

/-- The `VkResult` success code. -/
def VK_SUCCESS : Int := 0

/-- A Vulkan `Vk::Image` wrapper, reduced to what `BindImageMemory` touches:
the native handle and the stored last native error code (`m_lastErrorCode`). -/
structure Vk.Image where
  handle : Nat
  lastErrorCode : Int

/-- `Vk::Image::GetLastErrorCode`: the last-error accessor of the device-object
wrapper. -/
def Vk.Image.GetLastErrorCode (img : Vk.Image) : Int :=
  img.lastErrorCode

/-- `Vk::Image::BindImageMemory` (`RenderBuffer.inl`, embedded Vulkan part):
stores the native `vkBindImageMemory` result in `m_lastErrorCode` and returns
`false` when it differs from `VK_SUCCESS`, `true` otherwise. The native call's
return value is the oracle argument `nativeResult`. -/
def Vk.Image.BindImageMemory (img : Vk.Image) (memory : Nat) (offset : Nat)
    (nativeResult : Int) : Bool × Vk.Image :=
  let img' := { img with lastErrorCode := nativeResult }
  if nativeResult ≠ VK_SUCCESS then (false, img') else (true, img')

/-- A native OpenGL call emitted by the shader wrapper; tracked so that
"`Create` first destroys the prior handle" is observable in the embedding. -/
inductive GLCall where
  | deleteShader (handle : Nat)
  | createShader (shaderType : Nat)
  deriving DecidableEq

/-- The OpenGL `GL::Shader` wrapper: `m_device` (null until `Create`) and the
native handle `m_shader` (`0` = no handle). -/
structure GL.Shader where
  device : Option Nat
  shader : Nat

/-- `GL::Shader::Destroy` (`Shader.inl`): if a handle is held, emits
`glDeleteShader` on it and nulls the handle; otherwise does nothing. -/
def GL.Shader.Destroy (s : GL.Shader) : GL.Shader × List GLCall :=
  if s.shader ≠ 0 then ({ s with shader := 0 }, [GLCall.deleteShader s.shader])
  else (s, [])

/-- `GL::Shader::Create` (`Shader.inl`): calls `Destroy()`, stores the device,
then stores the handle returned by `glCreateShader(type)` (the oracle argument
`nativeHandle`); returns `false` when that handle is null. Result: (return
value, new state, emitted native calls). -/
def GL.Shader.Create (s : GL.Shader) (device : Nat) (shaderType : Nat)
    (nativeHandle : Nat) : Bool × GL.Shader × List GLCall :=
  let destroyed := GL.Shader.Destroy s
  let s' : GL.Shader := { device := some device, shader := nativeHandle }
  (nativeHandle ≠ 0, s', destroyed.snd ++ [GLCall.createShader shaderType])

/-- What the native compile step reports back through `glGetShaderiv` and
`glGetShaderInfoLog`: the `GL_COMPILE_STATUS` flag and the info log.
`GL_INFO_LOG_LENGTH` reports `infoLog.length`, and `glGetShaderInfoLog` called
with a buffer of that size stores exactly `infoLog`. -/
structure GL.CompileOutcome where
  compileStatus : Bool
  infoLog : List Char

/-- `std::string::resize(n)`: truncates to `n` characters or pads with null
characters up to `n`. -/
def stdStringResize (s : List Char) (n : Nat) : List Char :=
  s.take n ++ List.replicate (n - s.length) (Char.ofNat 0)

/-- `GL::Shader::Compile` (`Shader.inl`): runs `glCompileShader`; on success
returns `true` leaving `error` untouched; on failure, when the `error` out
parameter is non-null, resizes it to the reported log length and, when that
length is positive, fills it via `glGetShaderInfoLog`; returns `false`.
The native results are the oracle argument `outcome`. -/
def GL.Shader.Compile (s : GL.Shader) (outcome : GL.CompileOutcome)
    (error : Option (List Char)) : Bool × Option (List Char) :=
  if outcome.compileStatus then (true, error)
  else
    match error with
    | none => (false, none)
    | some err =>
        let logLength := outcome.infoLog.length
        let resized := stdStringResize err logLength
        let filled := if 0 < logLength then outcome.infoLog else resized
        (false, some filled)

/-- An operation on a `Vk::DeviceMemory`: a `Map` call (with the success of the
native `vkMapMemory` call and the pointer it produced), an `Unmap` call, or the
object's destruction. -/
inductive Vk.MemOp where
  | map (success : Bool) (ptr : Nat)
  | unmap
  | destroy
  deriving DecidableEq

/-- A `Vk::DeviceMemory`, reduced to its `m_mappedPtr` member; `none` models
the null pointer. -/
structure Vk.DeviceMemory where
  mappedPtr : Option Nat
  deriving DecidableEq

/-- Modelled from the spec: `DeviceMemory.inl` is absent from the sources (only
the class declaration in `src/unnamed/part_003` is present). A freshly
constructed `DeviceMemory` holds no mapped pointer. -/
def Vk.DeviceMemory.init : Vk.DeviceMemory :=
  { mappedPtr := none }

/-- Modelled from the spec: `DeviceMemory.inl` is absent from the sources.
Effect of one operation, following the spec contract — a successful `Map`
stores the host pointer, a failed `Map` leaves the state unchanged, and
`Unmap`/destruction clear the mapped pointer. -/
def Vk.DeviceMemory.step (m : Vk.DeviceMemory) (op : Vk.MemOp) : Vk.DeviceMemory :=
  match op with
  | Vk.MemOp.map true ptr => { mappedPtr := some ptr }
  | Vk.MemOp.map false _ => m
  | Vk.MemOp.unmap => { mappedPtr := none }
  | Vk.MemOp.destroy => { mappedPtr := none }

/-- Runs a sequence of operations from a given state. -/
def Vk.DeviceMemory.runFrom (m : Vk.DeviceMemory) (ops : List Vk.MemOp) :
    Vk.DeviceMemory :=
  ops.foldl Vk.DeviceMemory.step m

/-- Runs a sequence of operations on a freshly constructed `DeviceMemory`. -/
def Vk.DeviceMemory.run (ops : List Vk.MemOp) : Vk.DeviceMemory :=
  Vk.DeviceMemory.runFrom Vk.DeviceMemory.init ops

/-- `Vk::DeviceMemory::GetMappedPointer`: returns `m_mappedPtr`. -/
def Vk.DeviceMemory.GetMappedPointer (m : Vk.DeviceMemory) : Option Nat :=
  m.mappedPtr

/-- A software-storage byte buffer: declared byte size and contents (byte at
each index). -/
structure SoftwareBuffer where
  size : Nat
  bytes : Nat → Nat

/-- Modelled from the spec: the software buffer implementation behind
`Buffer::Fill` is absent from the sources (`src/unnamed/part_002` holds only
the `NzVertexBuffer` class declaration). Per the spec contract,
`Fill(data, offset, size, forceDiscard)` writes `size` bytes at `offset` and
fails when `offset + size` exceeds the buffer's declared size. -/
def SoftwareBuffer.Fill (b : SoftwareBuffer) (data : Nat → Nat)
    (offset size : Nat) (forceDiscard : Bool) : Option SoftwareBuffer :=
  if offset + size ≤ b.size then
    some { b with
      bytes := fun i =>
        if offset ≤ i ∧ i < offset + size then data (i - offset) else b.bytes i }
  else none

/-- Modelled from the spec: the software buffer implementation behind
`Buffer::Map` is absent from the sources. `Map(offset, size)` yields a pointer
through which the bytes of the range `[offset, offset + size)` are observed;
it fails when the range exceeds the buffer's declared size. -/
def SoftwareBuffer.Map (b : SoftwareBuffer) (offset size : Nat) :
    Option (Nat → Nat) :=
  if offset + size ≤ b.size then some (fun i => b.bytes (offset + i)) else none

/-- An `NzVertexBuffer`: byte window `[startOffset, endOffset)` into a buffer,
interpreted through a declaration of the recorded stride. -/
structure NzVertexBuffer where
  startOffset : Nat
  endOffset : Nat
  stride : Nat
  vertexCount : Nat

/-- Modelled from the spec: the `NzVertexBuffer` constructor body is absent
from the sources (`src/unnamed/part_002` holds only the class declaration).
Per the spec invariant, `endOffset - startOffset` must be a multiple of the
declaration's stride — construction fails otherwise — and the vertex count is
the window length divided by the stride. -/
def NzVertexBuffer.make (decl : VertexDeclaration) (startOffset endOffset : Nat) :
    Option NzVertexBuffer :=
  if (endOffset - startOffset) % decl.stride = 0 then
    some { startOffset := startOffset, endOffset := endOffset,
           stride := decl.stride,
           vertexCount := (endOffset - startOffset) / decl.stride }
  else none

/-- `NzVertexBuffer::GetVertexCount`: returns `m_vertexCount`. -/
def NzVertexBuffer.GetVertexCount (vb : NzVertexBuffer) : Nat :=
  vb.vertexCount

/-- Claim C8: in the ASCII fallback path, `Unicode::GetTitlecase` agrees with
`Unicode::GetUppercase` on every character. -/
theorem unicode_titlecase_eq_uppercase (character : Nat) :
    Unicode.GetTitlecase character = Unicode.GetUppercase character := rfl

/-- Claim C9: in the ASCII fallback path, `Unicode::GetCategory` returns
`Category_Number_DecimalDigit` for every character in `'A'`..`'Z'` (65..90) and
`'a'`..`'z'` (97..122) — the very category it returns for the decimal digits
`'0'`..`'9'` — and in particular not a letter category. -/
theorem unicode_getCategory_letters_are_decimal_digits :
    (∀ c : Nat, (65 ≤ c ∧ c ≤ 90) ∨ (97 ≤ c ∧ c ≤ 122) →
        Unicode.GetCategory c = Unicode.Category.Number_DecimalDigit)
  ∧ (∀ c : Nat, 48 ≤ c ∧ c ≤ 57 →
        Unicode.GetCategory c = Unicode.Category.Number_DecimalDigit)
  ∧ Unicode.Category.Number_DecimalDigit ≠ Unicode.Category.Letter_Uppercase
  ∧ Unicode.Category.Number_DecimalDigit ≠ Unicode.Category.Letter_Lowercase := by
  refine ⟨?_, ?_, by decide, by decide⟩
  · rintro c (⟨h1, h2⟩ | ⟨h1, h2⟩) <;> interval_cases c <;> rfl
  · rintro c ⟨h1, h2⟩
    interval_cases c <;> rfl

/-- Witness for claim C9 at the concrete characters `'A'` (65) and `'0'` (48). -/
theorem unicode_getCategory_letters_witness :
    ((65 ≤ 65 ∧ 65 ≤ 90) ∨ (97 ≤ 65 ∧ 65 ≤ 122)) ∧
      Unicode.GetCategory 65 = Unicode.Category.Number_DecimalDigit ∧
    (48 ≤ 48 ∧ 48 ≤ 57) ∧
      Unicode.GetCategory 48 = Unicode.Category.Number_DecimalDigit :=
  ⟨Or.inl ⟨le_refl 65, by decide⟩,
   unicode_getCategory_letters_are_decimal_digits.1 65 (Or.inl ⟨le_refl 65, by decide⟩),
   ⟨le_refl 48, by decide⟩,
   unicode_getCategory_letters_are_decimal_digits.2.1 48 ⟨le_refl 48, by decide⟩⟩

/-- Claim C3: under the precondition `componentIndex = 0 ∨ component = Userdata`
(the source's `assert`), `VertexDeclaration::FindComponent` returns `none`
exactly when no component with that `(semantic, index)` pair is in the
declaration's component sequence, and any component it returns is a member of
the sequence carrying that pair; being a total function of the embedding, it
never fails hard on an absent pair. -/
theorem vertexDeclaration_findComponent_spec (d : VertexDeclaration)
    (vc : VertexComponent) (ci : Nat)
    (h : ci = 0 ∨ vc = VertexComponent.Userdata) :
    (d.FindComponent vc ci = none ↔
      ∀ c ∈ d.components, ¬(c.component = vc ∧ c.componentIndex = ci))
  ∧ (∀ c, d.FindComponent vc ci = some c →
      c ∈ d.components ∧ c.component = vc ∧ c.componentIndex = ci) := by
  constructor
  · rw [VertexDeclaration.FindComponent, List.find?_eq_none]
    constructor
    · intro hall c hc hcc
      have := hall c hc
      simp only [Bool.and_eq_true, beq_iff_eq] at this
      exact this ⟨hcc.1, hcc.2⟩
    · intro hall c hc hp
      simp only [Bool.and_eq_true, beq_iff_eq] at hp
      exact hall c hc hp
  · intro c hfind
    refine ⟨List.mem_of_find?_eq_some hfind, ?_⟩
    have := List.find?_some hfind
    simp only [Bool.and_eq_true, beq_iff_eq] at this
    exact this

/-- Witness for claim C3: a declaration holding a position component at offset
0 and a texture-coordinate component at offset 12; the lookup precondition is
discharged with index 0. -/
theorem vertexDeclaration_findComponent_witness :
    ((0 : Nat) = 0 ∨ VertexComponent.Position = VertexComponent.Userdata) ∧
    ((VertexDeclaration.mk
        [VertexDeclaration.Component.mk VertexComponent.Position 0 ComponentType.Float3 0,
         VertexDeclaration.Component.mk VertexComponent.TexCoord 0 ComponentType.Float2 12]
        20 VertexInputRate.Vertex).FindComponent VertexComponent.Position 0 = none ↔
      ∀ c ∈ (VertexDeclaration.mk
        [VertexDeclaration.Component.mk VertexComponent.Position 0 ComponentType.Float3 0,
         VertexDeclaration.Component.mk VertexComponent.TexCoord 0 ComponentType.Float2 12]
        20 VertexInputRate.Vertex).components,
        ¬(c.component = VertexComponent.Position ∧ c.componentIndex = 0)) ∧
    (∀ c, (VertexDeclaration.mk
        [VertexDeclaration.Component.mk VertexComponent.Position 0 ComponentType.Float3 0,
         VertexDeclaration.Component.mk VertexComponent.TexCoord 0 ComponentType.Float2 12]
        20 VertexInputRate.Vertex).FindComponent VertexComponent.Position 0 = some c →
      c ∈ (VertexDeclaration.mk
        [VertexDeclaration.Component.mk VertexComponent.Position 0 ComponentType.Float3 0,
         VertexDeclaration.Component.mk VertexComponent.TexCoord 0 ComponentType.Float2 12]
        20 VertexInputRate.Vertex).components ∧
      c.component = VertexComponent.Position ∧ c.componentIndex = 0) :=
  ⟨Or.inl rfl,
   (vertexDeclaration_findComponent_spec
      (VertexDeclaration.mk
        [VertexDeclaration.Component.mk VertexComponent.Position 0 ComponentType.Float3 0,
         VertexDeclaration.Component.mk VertexComponent.TexCoord 0 ComponentType.Float2 12]
        20 VertexInputRate.Vertex)
      VertexComponent.Position 0 (Or.inl rfl)).1,
   (vertexDeclaration_findComponent_spec
      (VertexDeclaration.mk
        [VertexDeclaration.Component.mk VertexComponent.Position 0 ComponentType.Float3 0,
         VertexDeclaration.Component.mk VertexComponent.TexCoord 0 ComponentType.Float2 12]
        20 VertexInputRate.Vertex)
      VertexComponent.Position 0 (Or.inl rfl)).2⟩

/-- Claim C10: `Buffer::GetStorage` and `Buffer::HasStorage` dereference
`m_impl` unconditionally, so they yield a defined result exactly when
`IsValid()` holds (implementation non-null); on a buffer with no
implementation they hit the null dereference (`none`) instead of rejecting the
call, while `IsValid` itself is total and reports whether an implementation is
present. -/
theorem buffer_storage_accessors_require_valid (b : Buffer) (storage : DataStorage) :
    ((b.GetStorage).isSome = true ↔ b.IsValid = true)
  ∧ ((b.HasStorage storage).isSome = true ↔ b.IsValid = true)
  ∧ (b.IsValid = false → b.GetStorage = none ∧ b.HasStorage storage = none)
  ∧ (b.IsValid = b.impl.isSome) := by
  obtain ⟨impl, size, type⟩ := b
  cases impl <;>
    simp [Buffer.GetStorage, Buffer.HasStorage, Buffer.IsValid,
      AbstractBuffer.GetStorage]

/-- Witness for claim C10 at an invalid buffer (null implementation pointer):
the implication hypothesis `IsValid = false` is discharged concretely. -/
theorem buffer_storage_accessors_witness :
    ((Buffer.mk none 256 BufferType.Vertex).IsValid = false) ∧
    ((Buffer.mk none 256 BufferType.Vertex).GetStorage = none ∧
     (Buffer.mk none 256 BufferType.Vertex).HasStorage DataStorage.Hardware = none) :=
  ⟨rfl,
   (buffer_storage_accessors_require_valid
      (Buffer.mk none 256 BufferType.Vertex) DataStorage.Hardware).2.2.1 rfl⟩

/-- Claim C7: `Vk::Image::BindImageMemory` returns `true` exactly when the
native `vkBindImageMemory` call returns `VK_SUCCESS`, and in either case the
native result code is stored and retrievable through `GetLastErrorCode`. -/
theorem image_bindImageMemory_result (img : Vk.Image) (memory offset : Nat)
    (r : Int) :
    ((img.BindImageMemory memory offset r).fst = true ↔ r = VK_SUCCESS)
  ∧ (img.BindImageMemory memory offset r).snd.GetLastErrorCode = r := by
  by_cases hr : r = VK_SUCCESS <;>
    simp [Vk.Image.BindImageMemory, Vk.Image.GetLastErrorCode, hr]

/-- Claim C6: `GL::Shader::Create` first destroys any previously held handle
(the emitted native-call trace opens with the `Destroy` trace, which deletes
the prior handle when one was held) and then requests a new native shader
object; when `glCreateShader` returns the null handle, `Create` returns
`false` and the shader is left without a handle. -/
theorem shader_create_destroys_prior_and_fails_null (s : GL.Shader)
    (device shaderType nativeHandle : Nat) :
    ((GL.Shader.Create s device shaderType nativeHandle).snd.snd
        = (GL.Shader.Destroy s).snd ++ [GLCall.createShader shaderType])
  ∧ (s.shader ≠ 0 →
      (GL.Shader.Create s device shaderType nativeHandle).snd.snd
        = GLCall.deleteShader s.shader :: [GLCall.createShader shaderType])
  ∧ (nativeHandle = 0 →
      (GL.Shader.Create s device shaderType nativeHandle).fst = false
    ∧ (GL.Shader.Create s device shaderType nativeHandle).snd.fst.shader = 0)
  ∧ ((GL.Shader.Create s device shaderType nativeHandle).fst = true ↔
      nativeHandle ≠ 0) := by
  refine ⟨rfl, ?_, ?_, ?_⟩
  · intro hs
    simp [GL.Shader.Create, GL.Shader.Destroy, hs]
  · intro h0
    simp [GL.Shader.Create, h0]
  · by_cases h0 : nativeHandle = 0 <;> simp [GL.Shader.Create, h0]

/-- Witness for claim C6 at a shader holding handle 5 whose native creation
returns the null handle. -/
theorem shader_create_witness :
    ((GL.Shader.mk (some 1) 5).shader ≠ 0 ∧
      (GL.Shader.Create (GL.Shader.mk (some 1) 5) 2 3 0).snd.snd
        = GLCall.deleteShader 5 :: [GLCall.createShader 3]) ∧
    ((0 : Nat) = 0 ∧
      (GL.Shader.Create (GL.Shader.mk (some 1) 5) 2 3 0).fst = false ∧
      (GL.Shader.Create (GL.Shader.mk (some 1) 5) 2 3 0).snd.fst.shader = 0) :=
  ⟨⟨by decide,
    (shader_create_destroys_prior_and_fails_null
        (GL.Shader.mk (some 1) 5) 2 3 0).2.1 (by decide)⟩,
   ⟨rfl,
    (shader_create_destroys_prior_and_fails_null
        (GL.Shader.mk (some 1) 5) 2 3 0).2.2.1 rfl⟩⟩

/-- Claim C5: for a shader with a non-null handle, `GL::Shader::Compile`
returns `true` and leaves the error string untouched when native compilation
succeeds; when it fails it returns `false` and, if the error out parameter is
non-null, ends with the error string resized to the backend's reported log
length (possibly zero) and holding the diagnostic log. -/
theorem shader_compile_error_reporting (s : GL.Shader)
    (outcome : GL.CompileOutcome) (error : Option (List Char))
    (hShader : s.shader ≠ 0) :
    (outcome.compileStatus = true →
      GL.Shader.Compile s outcome error = (true, error))
  ∧ (outcome.compileStatus = false →
      (GL.Shader.Compile s outcome error).fst = false
    ∧ (error = none → (GL.Shader.Compile s outcome error).snd = none)
    ∧ (∀ err, error = some err →
        (GL.Shader.Compile s outcome error).snd = some outcome.infoLog
      ∧ ∀ log, (GL.Shader.Compile s outcome error).snd = some log →
          log.length = outcome.infoLog.length)) := by
  obtain ⟨status, infoLog⟩ := outcome
  constructor
  · intro h
    subst h
    rfl
  · intro h
    subst h
    refine ⟨?_, ?_, ?_⟩
    · cases error <;> rfl
    · intro he
      subst he
      rfl
    · intro err he
      subst he
      cases infoLog with
      | nil =>
        refine ⟨?_, ?_⟩
        · simp [GL.Shader.Compile, stdStringResize]
        · intro log hlog
          simp [GL.Shader.Compile, stdStringResize] at hlog
          simp [hlog]
      | cons a as =>
        refine ⟨?_, ?_⟩
        · simp [GL.Shader.Compile]
        · intro log hlog
          simp [GL.Shader.Compile] at hlog
          simp [hlog]

/-- Witness for claim C5: a shader with handle 7, a failed compilation with a
one-character log, and a non-null error string. -/
theorem shader_compile_witness :
    ((GL.Shader.mk (some 1) 7).shader ≠ 0) ∧
    ((GL.CompileOutcome.mk false [Char.ofNat 97]).compileStatus = false ∧
      (GL.Shader.Compile (GL.Shader.mk (some 1) 7)
          (GL.CompileOutcome.mk false [Char.ofNat 97]) (some [])).fst = false) :=
  ⟨by decide,
   rfl,
   ((shader_compile_error_reporting (GL.Shader.mk (some 1) 7)
      (GL.CompileOutcome.mk false [Char.ofNat 97]) (some [])
      (by decide)).2 rfl).1⟩

/-- Helper for claim C4: from an arbitrary starting state, the run of an
operation sequence ends with a mapped pointer exactly when either the sequence
contains a successful `Map` followed only by operations that neither unmap nor
destroy, or the start state was already mapped and the whole sequence neither
unmaps nor destroys. -/
theorem deviceMemory_runFrom_isSome (m : Vk.DeviceMemory) (ops : List Vk.MemOp) :
    ((Vk.DeviceMemory.runFrom m ops).mappedPtr.isSome = true) ↔
      ((∃ pre ptr post, ops = pre ++ Vk.MemOp.map true ptr :: post ∧
          ∀ op ∈ post, op ≠ Vk.MemOp.unmap ∧ op ≠ Vk.MemOp.destroy)
       ∨ (m.mappedPtr.isSome = true ∧
          ∀ op ∈ ops, op ≠ Vk.MemOp.unmap ∧ op ≠ Vk.MemOp.destroy)) := by
  induction ops generalizing m with
  | nil =>
    constructor
    · intro h
      exact Or.inr ⟨h, by simp⟩
    · rintro (⟨pre, ptr, post, habs, _⟩ | ⟨h, _⟩)
      · exact absurd habs (by simp)
      · exact h
  | cons op rest ih =>
    have hrun : Vk.DeviceMemory.runFrom m (op :: rest)
        = Vk.DeviceMemory.runFrom (Vk.DeviceMemory.step m op) rest := rfl
    rw [hrun, ih]
    cases op with
    | map success ptr0 =>
      cases success with
      | true =>
        constructor
        · rintro (⟨pre, p, post, hdec, hcl⟩ | ⟨_, hcl⟩)
          · exact Or.inl ⟨Vk.MemOp.map true ptr0 :: pre, p, post, by rw [hdec]; rfl, hcl⟩
          · exact Or.inl ⟨[], ptr0, rest, rfl, hcl⟩
        · rintro (⟨pre, p, post, hdec, hcl⟩ | ⟨_, hcl⟩)
          · cases pre with
            | nil =>
              simp only [List.nil_append, List.cons.injEq] at hdec
              exact Or.inr ⟨by simp [Vk.DeviceMemory.step], hdec.2 ▸ hcl⟩
            | cons a pre' =>
              simp only [List.cons_append, List.cons.injEq] at hdec
              exact Or.inl ⟨pre', p, post, hdec.2, hcl⟩
          · exact Or.inr ⟨by simp [Vk.DeviceMemory.step],
              fun op hop => hcl op (List.mem_cons_of_mem _ hop)⟩
      | false =>
        have hstep : Vk.DeviceMemory.step m (Vk.MemOp.map false ptr0) = m := rfl
        rw [hstep]
        constructor
        · rintro (⟨pre, p, post, hdec, hcl⟩ | ⟨hm, hcl⟩)
          · exact Or.inl ⟨Vk.MemOp.map false ptr0 :: pre, p, post, by rw [hdec]; rfl, hcl⟩
          · refine Or.inr ⟨hm, ?_⟩
            intro op hop
            rcases List.mem_cons.mp hop with hop | hop
            · subst hop
              exact ⟨by simp, by simp⟩
            · exact hcl op hop
        · rintro (⟨pre, p, post, hdec, hcl⟩ | ⟨hm, hcl⟩)
          · cases pre with
            | nil =>
              simp only [List.nil_append, List.cons.injEq] at hdec
              exact absurd hdec.1 (by simp)
            | cons a pre' =>
              simp only [List.cons_append, List.cons.injEq] at hdec
              exact Or.inl ⟨pre', p, post, hdec.2, hcl⟩
          · exact Or.inr ⟨hm, fun op hop => hcl op (List.mem_cons_of_mem _ hop)⟩
    | unmap =>
      have hstep : (Vk.DeviceMemory.step m Vk.MemOp.unmap).mappedPtr.isSome = false := rfl
      constructor
      · rintro (⟨pre, p, post, hdec, hcl⟩ | ⟨hm, _⟩)
        · exact Or.inl ⟨Vk.MemOp.unmap :: pre, p, post, by rw [hdec]; rfl, hcl⟩
        · rw [hstep] at hm
          exact absurd hm (by simp)
      · rintro (⟨pre, p, post, hdec, hcl⟩ | ⟨_, hcl⟩)
        · cases pre with
          | nil =>
            simp only [List.nil_append, List.cons.injEq] at hdec
            exact absurd hdec.1 (by simp)
          | cons a pre' =>
            simp only [List.cons_append, List.cons.injEq] at hdec
            exact Or.inl ⟨pre', p, post, hdec.2, hcl⟩
        · exact absurd ((hcl Vk.MemOp.unmap (List.mem_cons_self _ _)).1) (by simp)
    | destroy =>
      have hstep : (Vk.DeviceMemory.step m Vk.MemOp.destroy).mappedPtr.isSome = false := rfl
      constructor
      · rintro (⟨pre, p, post, hdec, hcl⟩ | ⟨hm, _⟩)
        · exact Or.inl ⟨Vk.MemOp.destroy :: pre, p, post, by rw [hdec]; rfl, hcl⟩
        · rw [hstep] at hm
          exact absurd hm (by simp)
      · rintro (⟨pre, p, post, hdec, hcl⟩ | ⟨_, hcl⟩)
        · cases pre with
          | nil =>
            simp only [List.nil_append, List.cons.injEq] at hdec
            exact absurd hdec.1 (by simp)
          | cons a pre' =>
            simp only [List.cons_append, List.cons.injEq] at hdec
            exact Or.inl ⟨pre', p, post, hdec.2, hcl⟩
        · exact absurd ((hcl Vk.MemOp.destroy (List.mem_cons_self _ _)).2) (by simp)

/-- Claim C4: a `Vk::DeviceMemory` reports no mapped pointer at construction,
and after any operation sequence `GetMappedPointer` returns a non-null pointer
exactly when the sequence contains a successful `Map` not followed by any
`Unmap` or destruction — i.e. only in the states between a successful `Map`
and the next `Unmap`/destruction. -/
theorem deviceMemory_mapped_pointer_lifecycle (ops : List Vk.MemOp) :
    Vk.DeviceMemory.init.GetMappedPointer = none
  ∧ (((Vk.DeviceMemory.run ops).GetMappedPointer).isSome = true ↔
      ∃ pre ptr post, ops = pre ++ Vk.MemOp.map true ptr :: post ∧
        ∀ op ∈ post, op ≠ Vk.MemOp.unmap ∧ op ≠ Vk.MemOp.destroy) := by
  refine ⟨rfl, ?_⟩
  have h := deviceMemory_runFrom_isSome Vk.DeviceMemory.init ops
  rw [Vk.DeviceMemory.run, Vk.DeviceMemory.GetMappedPointer]
  rw [h]
  constructor
  · rintro (hdec | ⟨hm, _⟩)
    · exact hdec
    · exact absurd hm (by simp [Vk.DeviceMemory.init])
  · intro hdec
    exact Or.inl hdec

/-- Claim C1: for every buffer and every `(offset, size)` pair with
`offset + size` within the buffer's declared byte size, `Fill(data, offset,
size)` succeeds and a subsequent `Map` over the same range yields a pointer
through which exactly the bytes written by `Fill` are observed. -/
theorem buffer_fill_then_map_observes_written_bytes (b : SoftwareBuffer)
    (data : Nat → Nat) (offset size : Nat) (forceDiscard : Bool)
    (h : offset + size ≤ b.size) :
    ∃ b', SoftwareBuffer.Fill b data offset size forceDiscard = some b'
      ∧ ∃ ptr, SoftwareBuffer.Map b' offset size = some ptr
        ∧ ∀ i, i < size → ptr i = data i := by
  refine ⟨_, by rw [SoftwareBuffer.Fill, if_pos h], ?_⟩
  refine ⟨_, by rw [SoftwareBuffer.Map]; exact if_pos h, ?_⟩
  intro i hi
  have hin : offset ≤ offset + i ∧ offset + i < offset + size := by omega
  simp only [if_pos hin]
  congr 1
  omega

/-- Witness for claim C1: a 4-byte zeroed buffer, filling 2 bytes at offset 1
with the bytes `1, 2` and mapping the same range back. -/
theorem buffer_fill_then_map_witness :
    1 + 2 ≤ (SoftwareBuffer.mk 4 (fun _ => 0)).size ∧
    ∃ b', SoftwareBuffer.Fill (SoftwareBuffer.mk 4 (fun _ => 0))
        (fun i => i + 1) 1 2 false = some b'
      ∧ ∃ ptr, SoftwareBuffer.Map b' 1 2 = some ptr
        ∧ ∀ i, i < 2 → ptr i = (fun i => i + 1) i :=
  ⟨by decide,
   buffer_fill_then_map_observes_written_bytes
      (SoftwareBuffer.mk 4 (fun _ => 0)) (fun i => i + 1) 1 2 false (by decide)⟩

/-- Claim C2: an `NzVertexBuffer` constructed over a byte window
`[startOffset, endOffset)` with a declaration of positive stride reports
`(endOffset - startOffset) / stride` vertices through `GetVertexCount`, and
construction fails when the window length is not a multiple of the stride. -/
theorem vertexBuffer_vertexCount_spec (decl : VertexDeclaration)
    (startOffset endOffset : Nat) (hstride : 0 < decl.stride) :
    ((endOffset - startOffset) % decl.stride = 0 →
      ∃ vb, NzVertexBuffer.make decl startOffset endOffset = some vb
        ∧ vb.GetVertexCount = (endOffset - startOffset) / decl.stride)
  ∧ ((endOffset - startOffset) % decl.stride ≠ 0 →
      NzVertexBuffer.make decl startOffset endOffset = none) := by
  constructor
  · intro hmod
    refine ⟨NzVertexBuffer.mk startOffset endOffset decl.stride
        ((endOffset - startOffset) / decl.stride), ?_, rfl⟩
    rw [NzVertexBuffer.make, if_pos hmod]
  · intro hmod
    rw [NzVertexBuffer.make, if_neg hmod]

/-- Witness for claim C2: the spec's own end-to-end example — a declaration of
stride 16 over a 160-byte window yields exactly 10 vertices — and a 10-byte
window over the same declaration is rejected. -/
theorem vertexBuffer_vertexCount_witness :
    (0 < (VertexDeclaration.mk [] 16 VertexInputRate.Vertex).stride ∧
     (160 - 0) % (VertexDeclaration.mk [] 16 VertexInputRate.Vertex).stride = 0 ∧
     ∃ vb, NzVertexBuffer.make (VertexDeclaration.mk [] 16 VertexInputRate.Vertex) 0 160
        = some vb ∧ vb.GetVertexCount = (160 - 0) /
          (VertexDeclaration.mk [] 16 VertexInputRate.Vertex).stride) ∧
    ((10 - 0) % (VertexDeclaration.mk [] 16 VertexInputRate.Vertex).stride ≠ 0 ∧
     NzVertexBuffer.make (VertexDeclaration.mk [] 16 VertexInputRate.Vertex) 0 10 = none) :=
  ⟨⟨by decide, by decide,
    (vertexBuffer_vertexCount_spec (VertexDeclaration.mk [] 16 VertexInputRate.Vertex)
        0 160 (by decide)).1 (by decide)⟩,
   ⟨by decide,
    (vertexBuffer_vertexCount_spec (VertexDeclaration.mk [] 16 VertexInputRate.Vertex)
        0 10 (by decide)).2 (by decide)⟩⟩
